import Mathlib

/-!
Verification of the cryptobox JNI bridge (src/cryptobox-jni.c).

The bridge sits between the JVM and the native cryptobox engine.  Every
entry point is a straight-line C function whose behaviour depends on the
outcomes of the JNI calls it makes (string/array acquisition, object
construction, array allocation) and on the result code and output buffer
of the one native engine call it wraps.  We embed each entry point as a
pure Lean function parameterised by an environment record that fixes
those outcomes, and returning a record of the observable effects: the
value returned to the JVM, the exception object raised via
cboxjni_throw, the final contents of the caller-supplied byte array,
whether the native call was made and with which length argument, and how
often the native output buffer was freed.

Modelling conventions:
- jbyte contents are List Int; buffer contents are irrelevant to the
  control flow, only lengths and identity matter.
- a JNI operation that can fail (GetStringUTFChars, GetByteArrayElements,
  NewByteArray, NewObject, SetByteArrayRegion, SetObjectArrayElement,
  FindClass, GetMethodID, RegisterNatives) is represented by a Boolean
  oracle in the environment: true means the call succeeded, false means
  it returned NULL and/or left a pending exception, which is exactly the
  condition the source tests with cboxjni_check_error / ExceptionCheck.
- machine integers: jint arithmetic wraps in 32-bit two-complement
  (wrap32); the uint16_t prekey length in cboxjni_init_from_prekey is
  the Java array length reduced mod 2^16.
- dereferencing a null native buffer (cbox_vec_len(NULL)) is modelled by
  the distinguished outcome JRet.crash.
-/

/-- Native engine result code; 0 models CBOX_SUCCESS, any other value a
failure code. -/
abbrev CBoxResult := Nat

/-- A native variable-length byte buffer (CBoxVec) owned by the bridge
until freed. -/
structure CBoxVec where
  data : List Int
deriving DecidableEq

/-- Outcome of a bridge function that returns a jbyteArray to the JVM:
a managed array, the NULL sentinel, or undefined behaviour from
dereferencing a null native pointer. -/
inductive JRet where
  | arr (bytes : List Int)
  | null
  | crash
deriving DecidableEq

/-- Release mode for ReleaseByteArrayElements: commit (mode 0) copies the
native working copy back into the managed array, abort (JNI_ABORT) frees
the working copy without copying back. -/
inductive ReleaseMode where
  | commit
  | abort
deriving DecidableEq

/-- Semantics of ReleaseByteArrayElements on the managed array contents:
arr is the caller array before the call, native the contents the native
code left in the borrowed working copy. -/
def releaseByteArrayElements (arr native : List Int) : ReleaseMode → List Int
  | ReleaseMode.commit => native
  | ReleaseMode.abort => arr

/-- Outcomes of the two fallible JNI steps inside cboxjni_vec2arr:
allocOk models line 51-52 (NewByteArray succeeded and no exception is
pending), copyOk models line 57-59 (SetByteArrayRegion raised no
exception). -/
structure Vec2ArrEnv where
  allocOk : Bool
  copyOk : Bool
deriving DecidableEq

/-- Embedding of cboxjni_vec2arr (lines 49-64).  The input is the CBoxVec
pointer, possibly NULL.  The second component counts the calls to
cbox_vec_free on that pointer.  With a NULL pointer the very first step,
cbox_vec_len(v), dereferences NULL: outcome JRet.crash.  Otherwise the
native buffer is freed exactly once on each of the three exit paths
(allocation failure line 53, copy failure line 58-60, success line
58-63). -/
def cboxjni_vec2arr (env : Vec2ArrEnv) (v : Option CBoxVec) : JRet × Nat :=
  match v with
  | none => (JRet.crash, 0)
  | some buf =>
    if env.allocOk then
      if env.copyOk then (JRet.arr buf.data, 1)
      else (JRet.null, 1)
    else (JRet.null, 1)

/-- Embedding of cboxjni_throw (lines 34-41): constructing the
CryptoException object can itself fail (throwOk = false), in which case
nothing is thrown; otherwise the exception carrying the native code is
raised.  The result is the raised failure object, if any. -/
def cboxjni_throw (throwOk : Bool) (code : CBoxResult) : Option CBoxResult :=
  if throwOk then some code else none

/-- Result of returning a managed wrapper object: the object or NULL. -/
inductive ObjRet (α : Type) where
  | obj (a : α)
  | null
deriving DecidableEq

/-- The managed CryptoSession wrapper: native session pointer plus the
session-id string (modelled as an opaque token). -/
structure SessionObj where
  ptr : Int
  sid : Nat
deriving DecidableEq

/-- Embedding of cboxjni_new_session (lines 66-74): NewObject for the
session wrapper, NULL on construction failure. -/
def cboxjni_new_session (ctorOk : Bool) (ptr : Int) (sid : Nat) : ObjRet SessionObj :=
  if ctorOk then ObjRet.obj ⟨ptr, sid⟩ else ObjRet.null

-- Fingerprints /////////////////////////////////////////////////////////////

/-- Environment of cboxjni_local_fingerprint / cboxjni_remote_fingerprint:
fpRc is the result code of cbox_fingerprint_local / cbox_fingerprint_remote
(the source discards it), fpOut the buffer the native call left in fp
(none: the call failed and fp is still NULL). -/
structure FingerprintEnv where
  fpRc : CBoxResult
  fpOut : Option CBoxVec
  venv : Vec2ArrEnv
deriving DecidableEq

/-- Embedding of cboxjni_local_fingerprint (lines 158-166): the native
result code env.fpRc is not inspected; fp is handed to cboxjni_vec2arr
unconditionally. -/
def cboxjni_local_fingerprint (env : FingerprintEnv) : JRet × Nat :=
  cboxjni_vec2arr env.venv env.fpOut

/-- Embedding of cboxjni_remote_fingerprint (lines 352-360): same shape
as the local fingerprint, on a session handle. -/
def cboxjni_remote_fingerprint (env : FingerprintEnv) : JRet × Nat :=
  cboxjni_vec2arr env.venv env.fpOut

-- Encrypt / Decrypt ////////////////////////////////////////////////////////

/-- Observable result of the encrypt/decrypt entry points: the value
returned to the JVM, the failure object raised via cboxjni_throw (if
any), and the final contents of the caller-supplied byte array. -/
structure SessCallResult where
  ret : JRet
  thrown : Option CBoxResult
  finalArg : List Int
deriving DecidableEq

/-- Environment of cboxjni_session_encrypt: borrowOk models lines 285-289
(GetByteArrayElements succeeded and no exception pending), mutated the
contents the native call left in the borrowed working copy, encRc the
result code of cbox_encrypt (discarded by the source), encOut the buffer
cbox_encrypt left in cipher (none: still NULL). -/
structure EncryptEnv where
  borrowOk : Bool
  mutated : List Int
  encRc : CBoxResult
  encOut : Option CBoxVec
  venv : Vec2ArrEnv

/-- Embedding of cboxjni_session_encrypt (lines 276-297).  The result
code of cbox_encrypt (env.encRc) is not captured by the source (line
292), so it does not occur in the body: the output buffer is handed to
cboxjni_vec2arr and the conversion returned whatever the code was.  The
borrow is released with JNI_ABORT (line 294). -/
def cboxjni_session_encrypt (env : EncryptEnv) (plain : List Int) : SessCallResult :=
  if env.borrowOk then
    ⟨(cboxjni_vec2arr env.venv env.encOut).1, none,
      releaseByteArrayElements plain env.mutated ReleaseMode.abort⟩
  else
    ⟨JRet.null, none, plain⟩

/-- Environment of cboxjni_session_decrypt: decRc is the result code of
cbox_decrypt, decOut the buffer it left in plain, throwOk whether the
CryptoException object can be constructed. -/
structure DecryptEnv where
  borrowOk : Bool
  mutated : List Int
  decRc : CBoxResult
  decOut : Option CBoxVec
  throwOk : Bool
  venv : Vec2ArrEnv

/-- Embedding of cboxjni_session_decrypt (lines 299-325): borrow, native
call, release with JNI_ABORT (line 317), then the result code is checked
(line 319): non-success throws and returns NULL, success converts the
plaintext buffer. -/
def cboxjni_session_decrypt (env : DecryptEnv) (cipher : List Int) : SessCallResult :=
  if env.borrowOk then
    let fin := releaseByteArrayElements cipher env.mutated ReleaseMode.abort
    if env.decRc ≠ 0 then
      ⟨JRet.null, cboxjni_throw env.throwOk env.decRc, fin⟩
    else
      ⟨(cboxjni_vec2arr env.venv env.decOut).1, none, fin⟩
  else
    ⟨JRet.null, none, cipher⟩

-- Session initialisation ///////////////////////////////////////////////////

/-- Environment of cboxjni_init_from_prekey: sidOk models line 174-177
(GetStringUTFChars), borrowOk line 182-187 (GetByteArrayElements returned
non-NULL), initRc/sessPtr the outcome of cbox_session_init_from_prekey,
throwOk exception construction, sessCtorOk the session wrapper NewObject. -/
structure InitPkEnv where
  sidOk : Bool
  borrowOk : Bool
  mutated : List Int
  initRc : CBoxResult
  sessPtr : Int
  throwOk : Bool
  sessCtorOk : Bool

/-- Observable result of cboxjni_init_from_prekey: the returned wrapper
or NULL, the raised failure object, the final contents of the prekey
array, whether ReleaseStringUTFChars ran on the session id, and the
length argument passed to the native call (none: the native call was
never made). -/
structure InitPkResult where
  ret : ObjRet SessionObj
  thrown : Option CBoxResult
  finalArg : List Int
  sidReleased : Bool
  nativeLen : Option Nat
deriving DecidableEq

/-- Embedding of cboxjni_init_from_prekey (lines 168-201).  Line 181
declares the length as uint16_t, so the value passed to the native call
is the array length reduced mod 2^16.  A borrow failure (line 184)
releases the already-acquired session-id string and returns NULL before
the native call.  The borrow is released with JNI_ABORT (line 192). -/
def cboxjni_init_from_prekey (env : InitPkEnv) (sid : Nat) (prekeyArr : List Int) :
    InitPkResult :=
  if env.sidOk then
    let prekey_len := prekeyArr.length % 65536
    if env.borrowOk then
      let fin := releaseByteArrayElements prekeyArr env.mutated ReleaseMode.abort
      if env.initRc ≠ 0 then
        ⟨ObjRet.null, cboxjni_throw env.throwOk env.initRc, fin, true, some prekey_len⟩
      else
        ⟨cboxjni_new_session env.sessCtorOk env.sessPtr sid, none, fin, true,
          some prekey_len⟩
    else
      ⟨ObjRet.null, none, prekeyArr, true, none⟩
  else
    ⟨ObjRet.null, none, prekeyArr, false, none⟩

/-- Environment of cboxjni_init_from_message: as for the prekey variant,
plus plainOut (the buffer cbox_session_init_from_message left in plain),
the conversion environment for that buffer, and pairCtorOk (NewObject for
the SessionMessage pair, whose result the source returns unchecked). -/
structure InitMsgEnv where
  sidOk : Bool
  borrowOk : Bool
  mutated : List Int
  initRc : CBoxResult
  sessPtr : Int
  plainOut : Option CBoxVec
  throwOk : Bool
  sessCtorOk : Bool
  pairCtorOk : Bool
  venv : Vec2ArrEnv

/-- Value returned by cboxjni_init_from_message: a SessionMessage pair
(whose session component may itself be NULL), the NULL sentinel, or a
crash. -/
inductive MsgRet where
  | pair (sess : ObjRet SessionObj) (plaintext : List Int)
  | null
  | crash
deriving DecidableEq

/-- Observable result of cboxjni_init_from_message; plainFrees counts the
calls to cbox_vec_free on the plaintext buffer. -/
structure InitMsgResult where
  ret : MsgRet
  thrown : Option CBoxResult
  finalArg : List Int
  sidReleased : Bool
  nativeCalled : Bool
  plainFrees : Nat
deriving DecidableEq

/-- Embedding of cboxjni_init_from_message (lines 203-246).  On native
success the session wrapper is built (line 236) and its result is NOT
checked; the plaintext buffer is then converted (line 238): conversion
failure returns NULL (line 239-241); otherwise the SessionMessage pair
is built with whatever the session wrapper step produced, and the result
of that NewObject is returned without a check (lines 243-245). -/
def cboxjni_init_from_message (env : InitMsgEnv) (sid : Nat) (msgArr : List Int) :
    InitMsgResult :=
  if env.sidOk then
    if env.borrowOk then
      let fin := releaseByteArrayElements msgArr env.mutated ReleaseMode.abort
      if env.initRc ≠ 0 then
        ⟨MsgRet.null, cboxjni_throw env.throwOk env.initRc, fin, true, true, 0⟩
      else
        let j_sess := cboxjni_new_session env.sessCtorOk env.sessPtr sid
        let conv := cboxjni_vec2arr env.venv env.plainOut
        match conv.1 with
        | JRet.arr pt =>
          if env.pairCtorOk then
            ⟨MsgRet.pair j_sess pt, none, fin, true, true, conv.2⟩
          else
            ⟨MsgRet.null, none, fin, true, true, conv.2⟩
        | JRet.null => ⟨MsgRet.null, none, fin, true, true, conv.2⟩
        | JRet.crash => ⟨MsgRet.crash, none, fin, true, true, conv.2⟩
    else
      ⟨MsgRet.null, none, msgArr, true, false, 0⟩
  else
    ⟨MsgRet.null, none, msgArr, false, false, 0⟩

-- Prekey generation ////////////////////////////////////////////////////////

/-- Reduction of an integer into the 32-bit two-complement range,
modelling jint arithmetic. -/
def wrap32 (n : Int) : Int := (n + 2147483648) % 4294967296 - 2147483648

/-- The managed PreKey bundle value object: jint id plus serialized
public-key bytes. -/
structure PKBundle where
  id : Int
  key : List Int
deriving DecidableEq

/-- Environment of cboxjni_new_prekeys, indexed by the loop iteration i:
rc i and key i are the result code and output buffer of cbox_new_prekey
on iteration i, venvAllocOk/venvCopyOk the conversion oracles for that
buffer, ctorOk i the PreKey NewObject, setOk i the SetObjectArrayElement
store.  arrayAllocOk models the initial NewObjectArray (line 125). -/
structure PrekeyEnv where
  arrayAllocOk : Bool
  rc : Nat → CBoxResult
  key : Nat → List Int
  venvAllocOk : Nat → Bool
  venvCopyOk : Nat → Bool
  ctorOk : Nat → Bool
  setOk : Nat → Bool

/-- Embedding of the loop of cboxjni_new_prekeys (lines 130-153).  The
first argument of the recursion is the remaining iteration count, the
second the current loop index i.  Any failing step makes the whole entry
point return NULL (none): the partially built array is discarded. -/
def prekeyLoop (env : PrekeyEnv) (start : Int) : Nat → Nat → Option (List PKBundle)
  | 0, _ => some []
  | n + 1, i =>
    if env.rc i ≠ 0 then
      none
    else
      match (cboxjni_vec2arr ⟨env.venvAllocOk i, env.venvCopyOk i⟩ (some ⟨env.key i⟩)).1 with
      | JRet.arr k =>
        if env.ctorOk i then
          if env.setOk i then
            match prekeyLoop env start n (i + 1) with
            | some rest => some (⟨wrap32 (start + (i : Int)), k⟩ :: rest)
            | none => none
          else none
        else none
      | JRet.null => none
      | JRet.crash => none

/-- Embedding of cboxjni_new_prekeys (lines 117-156): allocate the bundle
array, then run the loop from index 0.  The bundle id on iteration i is
the jint j_id = j_start + i, i.e. wrap32 (start + i). -/
def cboxjni_new_prekeys (env : PrekeyEnv) (start : Int) (num : Nat) :
    Option (List PKBundle) :=
  if env.arrayAllocOk then prekeyLoop env start num 0 else none

/-- Every JNI and native step of the first num iterations of
cboxjni_new_prekeys succeeds. -/
def PrekeyEnvOk (env : PrekeyEnv) (num : Nat) : Prop :=
  env.arrayAllocOk = true ∧
  ∀ i, i < num →
    env.rc i = 0 ∧ env.venvAllocOk i = true ∧ env.venvCopyOk i = true ∧
    env.ctorOk i = true ∧ env.setOk i = true

/-- A concrete all-success prekey environment: every native call returns
CBOX_SUCCESS with key bytes [1], and every JNI step succeeds. -/
def allOkPrekeyEnv : PrekeyEnv :=
  ⟨true, fun _ => 0, fun _ => [1], fun _ => true, fun _ => true, fun _ => true,
    fun _ => true⟩

-- Module load //////////////////////////////////////////////////////////////

/-- The process-wide binding cache (lines 19-30): one slot per resolved
class and constructor identifier; none models a NULL global. -/
structure BindingCache where
  ex_class : Option Unit
  box_class : Option Unit
  sess_class : Option Unit
  sessmsg_class : Option Unit
  bytearr_class : Option Unit
  pkbundle_class : Option Unit
  ex_ctor : Option Unit
  sess_ctor : Option Unit
  box_ctor : Option Unit
  sessmsg_ctor : Option Unit
  pkbundle_ctor : Option Unit
deriving DecidableEq

/-- Outcomes of the individual resolution and registration steps of
JNI_OnLoad, in source order. -/
structure LoadEnv where
  getEnvOk : Bool
  findClassEx : Bool
  findClassBox : Bool
  findClassSess : Bool
  findClassSessMsg : Bool
  findClassByteArr : Bool
  findClassPkBundle : Bool
  findMethodExCtor : Bool
  findMethodSessCtor : Bool
  findMethodBoxCtor : Bool
  findMethodSessMsgCtor : Bool
  findMethodPkBundleCtor : Bool
  registerBoxOk : Bool
  registerSessOk : Bool
deriving DecidableEq

/-- Result of JNI_OnLoad: the returned status (65542 = JNI_VERSION_1_6,
-1 = JNI_ERR, -3 = JNI_EVERSION), the binding cache left in the globals,
and whether each of the two RegisterNatives calls bound its method
table. -/
structure LoadOutcome where
  ret : Int
  cache : BindingCache
  boxRegistered : Bool
  sessRegistered : Bool
deriving DecidableEq

/-- Result of one cboxjni_find_class / cboxjni_find_method resolution. -/
def opt (b : Bool) : Option Unit := if b then some () else none

/-- Embedding of JNI_OnLoad (lines 405-451), transcribed step by step in
source order.  Note the check after assigning cboxjni_pkbundle_ctor:
line 442 of the source tests cboxjni_sessmsg_ctor again instead of
cboxjni_pkbundle_ctor, and the model reproduces exactly that test. -/
def JNI_OnLoad (env : LoadEnv) : LoadOutcome :=
  if env.getEnvOk = false then
    ⟨-3, ⟨none, none, none, none, none, none, none, none, none, none, none⟩,
      false, false⟩
  else
    let exCls := opt env.findClassEx
    if exCls = none then
      ⟨-1, ⟨exCls, none, none, none, none, none, none, none, none, none, none⟩,
        false, false⟩
    else
    let boxCls := opt env.findClassBox
    if boxCls = none then
      ⟨-1, ⟨exCls, boxCls, none, none, none, none, none, none, none, none, none⟩,
        false, false⟩
    else
    let sessCls := opt env.findClassSess
    if sessCls = none then
      ⟨-1, ⟨exCls, boxCls, sessCls, none, none, none, none, none, none, none, none⟩,
        false, false⟩
    else
    let sessmsgCls := opt env.findClassSessMsg
    if sessmsgCls = none then
      ⟨-1, ⟨exCls, boxCls, sessCls, sessmsgCls, none, none, none, none, none, none,
        none⟩, false, false⟩
    else
    let bytearrCls := opt env.findClassByteArr
    if bytearrCls = none then
      ⟨-1, ⟨exCls, boxCls, sessCls, sessmsgCls, bytearrCls, none, none, none, none,
        none, none⟩, false, false⟩
    else
    let pkbCls := opt env.findClassPkBundle
    if pkbCls = none then
      ⟨-1, ⟨exCls, boxCls, sessCls, sessmsgCls, bytearrCls, pkbCls, none, none, none,
        none, none⟩, false, false⟩
    else
    let exCtor := opt env.findMethodExCtor
    if exCtor = none then
      ⟨-1, ⟨exCls, boxCls, sessCls, sessmsgCls, bytearrCls, pkbCls, exCtor, none,
        none, none, none⟩, false, false⟩
    else
    let sessCtor := opt env.findMethodSessCtor
    if sessCtor = none then
      ⟨-1, ⟨exCls, boxCls, sessCls, sessmsgCls, bytearrCls, pkbCls, exCtor, sessCtor,
        none, none, none⟩, false, false⟩
    else
    let boxCtor := opt env.findMethodBoxCtor
    if boxCtor = none then
      ⟨-1, ⟨exCls, boxCls, sessCls, sessmsgCls, bytearrCls, pkbCls, exCtor, sessCtor,
        boxCtor, none, none⟩, false, false⟩
    else
    let sessmsgCtor := opt env.findMethodSessMsgCtor
    if sessmsgCtor = none then
      ⟨-1, ⟨exCls, boxCls, sessCls, sessmsgCls, bytearrCls, pkbCls, exCtor, sessCtor,
        boxCtor, sessmsgCtor, none⟩, false, false⟩
    else
    let pkbCtor := opt env.findMethodPkBundleCtor
    let cache : BindingCache :=
      ⟨exCls, boxCls, sessCls, sessmsgCls, bytearrCls, pkbCls, exCtor, sessCtor,
        boxCtor, sessmsgCtor, pkbCtor⟩
    if sessmsgCtor = none then
      ⟨-1, cache, false, false⟩
    else
      if env.registerBoxOk = false then
        ⟨-1, cache, false, false⟩
      else if env.registerSessOk = false then
        ⟨-1, cache, true, false⟩
      else
        ⟨65542, cache, true, true⟩

/-- Module-load environment in which every resolution and registration
succeeds except the GetMethodID lookup of the PreKey constructor. -/
def pkbCtorFailEnv : LoadEnv :=
  ⟨true, true, true, true, true, true, true, true, true, true, true, false, true,
    true⟩

-- Helper lemmas ////////////////////////////////////////////////////////////

/-- On a non-NULL buffer, cboxjni_vec2arr calls cbox_vec_free exactly
once, whatever the JNI oracle outcomes are. -/
theorem vec2arr_snd_of_some (env : Vec2ArrEnv) (buf : CBoxVec) :
    (cboxjni_vec2arr env (some buf)).2 = 1 := by
  obtain ⟨a, c⟩ := env
  cases a <;> cases c <;> rfl

/-- Integers already inside the 32-bit two-complement range are fixed by
wrap32. -/
theorem wrap32_eq_self (n : Int) (h1 : -2147483648 ≤ n) (h2 : n < 2147483648) :
    wrap32 n = n := by
  unfold wrap32
  have h3 : (0 : Int) ≤ n + 2147483648 := by omega
  have h4 : n + 2147483648 < 4294967296 := by omega
  rw [Int.emod_eq_of_lt h3 h4]
  omega

/-- When every step of the remaining iterations succeeds, the prekey
loop returns the bundle list whose entry for offset j carries id
wrap32 (start + (i + j)) and the key bytes of iteration i + j. -/
theorem prekeyLoop_all_ok (env : PrekeyEnv) (start : Int) :
    ∀ (n i : Nat),
      (∀ j, j < i + n →
        env.rc j = 0 ∧ env.venvAllocOk j = true ∧ env.venvCopyOk j = true ∧
          env.ctorOk j = true ∧ env.setOk j = true) →
      prekeyLoop env start n i =
        some ((List.range n).map
          (fun j => ⟨wrap32 (start + ((i + j : Nat) : Int)), env.key (i + j)⟩)) := by
  intro n
  induction n with
  | zero =>
    intro i _
    simp [prekeyLoop]
  | succ m ih =>
    intro i h
    obtain ⟨hrc, ha, hc, hct, hst⟩ := h i (by omega)
    have hrest := ih (i + 1) (by intro j hj; exact h j (by omega))
    simp only [prekeyLoop, hrc, ha, hc, hct, hst, cboxjni_vec2arr, ne_eq,
      not_true_eq_false, not_false_eq_true, if_true, if_false, ite_true, ite_false,
      reduceIte, hrest]
    rw [List.range_succ_eq_map, List.map_cons, List.map_map]
    refine congrArg some (congrArg₂ List.cons ?_ ?_)
    · simp
    · refine List.map_congr_left ?_
      intro j _
      have hidx : i + Nat.succ j = i + 1 + j := by omega
      simp [Function.comp, hidx]

-- Claim theorems ///////////////////////////////////////////////////////////

/-- Claim C1 (code bug evidence): in the module-load execution where
every resolution succeeds except the GetMethodID lookup of the PreKey
constructor, JNI_OnLoad does not abort.  It returns JNI_VERSION_1_6
(65542), registers both native method tables, and leaves the cached
cboxjni_pkbundle_ctor NULL, because line 442 of the source re-checks
cboxjni_sessmsg_ctor instead of cboxjni_pkbundle_ctor.  This contradicts
the fail-fast initialization stated by the claim and by the spec. -/
theorem c1_onload_wrong_null_check :
    JNI_OnLoad pkbCtorFailEnv =
      ⟨65542,
        ⟨some (), some (), some (), some (), some (), some (), some (), some (),
          some (), some (), none⟩, true, true⟩ := by
  rfl

/-- Claim C2: on a borrowable plaintext array, cboxjni_session_encrypt
never inspects the result code of cbox_encrypt: for every code rc the
output buffer is handed to cboxjni_vec2arr and the conversion result is
returned, no failure object is raised, and the caller array is released
unchanged.  The right-hand side does not mention rc, so the returned
value is the same whatever code the native encrypt call reports. -/
theorem c2_encrypt_ignores_result_code (rc : CBoxResult) (mutated plain : List Int)
    (out : Option CBoxVec) (venv : Vec2ArrEnv) :
    cboxjni_session_encrypt ⟨true, mutated, rc, out, venv⟩ plain =
      ⟨(cboxjni_vec2arr venv out).1, none, plain⟩ := by
  rfl

/-- Claim C3: for every native buffer handed to cboxjni_vec2arr, the
buffer is freed exactly once on every exit path (allocation failure,
copy failure, success) - never twice and never leaked - and the
conversion succeeds exactly when both JNI steps succeed. -/
theorem c3_vec2arr_frees_once (env : Vec2ArrEnv) (buf : CBoxVec) :
    (cboxjni_vec2arr env (some buf)).2 = 1 ∧
      ((cboxjni_vec2arr env (some buf)).1 = JRet.arr buf.data ↔
        env.allocOk = true ∧ env.copyOk = true) := by
  obtain ⟨a, c⟩ := env
  cases a <;> cases c <;> simp [cboxjni_vec2arr]

/-- Claim C5: on a borrowable ciphertext array (and with the exception
object constructible), cboxjni_session_decrypt raises the failure object
carrying the native code and returns NULL exactly when cbox_decrypt
reports a non-success code; on a success code the plaintext buffer is
handed to cboxjni_vec2arr and the conversion result is returned with no
failure raised. -/
theorem c5_decrypt_failure_iff (rc : CBoxResult) (mutated cipher : List Int)
    (out : Option CBoxVec) (venv : Vec2ArrEnv) :
    (rc ≠ 0 →
      cboxjni_session_decrypt ⟨true, mutated, rc, out, true, venv⟩ cipher =
        ⟨JRet.null, some rc, cipher⟩) ∧
    (rc = 0 →
      cboxjni_session_decrypt ⟨true, mutated, rc, out, true, venv⟩ cipher =
        ⟨(cboxjni_vec2arr venv out).1, none, cipher⟩) := by
  constructor
  · intro h
    simp [cboxjni_session_decrypt, cboxjni_throw, releaseByteArrayElements, h]
  · intro h
    simp [cboxjni_session_decrypt, releaseByteArrayElements, h]

/-- Witness for claim C5 at the concrete codes 7 and 0. -/
theorem c5_decrypt_witness :
    cboxjni_session_decrypt ⟨true, [], 7, some ⟨[3]⟩, true, ⟨true, true⟩⟩ [9] =
        ⟨JRet.null, some 7, [9]⟩ ∧
      cboxjni_session_decrypt ⟨true, [], 0, some ⟨[3]⟩, true, ⟨true, true⟩⟩ [9] =
        ⟨JRet.arr [3], none, [9]⟩ := by
  constructor
  · exact (c5_decrypt_failure_iff 7 [] [9] (some ⟨[3]⟩) ⟨true, true⟩).1 (by decide)
  · have h := (c5_decrypt_failure_iff 0 [] [9] (some ⟨[3]⟩) ⟨true, true⟩).2 rfl
    rw [h]
    rfl

/-- Claim C6: every entry point that borrows a caller-supplied byte
array (encrypt, decrypt, session-from-prekey, session-from-message)
releases the borrow with JNI_ABORT, so the caller array contents after
the call equal the contents before it, whatever the native call left in
the borrowed working copy. -/
theorem c6_borrow_released_without_writeback
    (m1 m2 m3 m4 plain cipher pkArr msgArr : List Int)
    (rcE rcD rcP rcM : CBoxResult) (outE outD pout : Option CBoxVec)
    (venvE venvD venvM : Vec2ArrEnv) (thD thP thM sOkP sOkM pOkM : Bool)
    (ptrP ptrM : Int) (sidP sidM : Nat) :
    (cboxjni_session_encrypt ⟨true, m1, rcE, outE, venvE⟩ plain).finalArg = plain ∧
    (cboxjni_session_decrypt ⟨true, m2, rcD, outD, thD, venvD⟩ cipher).finalArg =
      cipher ∧
    (cboxjni_init_from_prekey ⟨true, true, m3, rcP, ptrP, thP, sOkP⟩ sidP
        pkArr).finalArg = pkArr ∧
    (cboxjni_init_from_message ⟨true, true, m4, rcM, ptrM, pout, thM, sOkM, pOkM,
        venvM⟩ sidM msgArr).finalArg = msgArr := by
  refine ⟨rfl, ?_, ?_, ?_⟩
  · by_cases h : rcD = 0 <;>
      simp [cboxjni_session_decrypt, releaseByteArrayElements, h]
  · by_cases h : rcP = 0 <;>
      simp [cboxjni_init_from_prekey, releaseByteArrayElements, h]
  · by_cases h : rcM = 0
    · cases h2 : (cboxjni_vec2arr venvM pout).1 <;> cases pOkM <;>
        simp [cboxjni_init_from_message, releaseByteArrayElements, h, h2]
    · simp [cboxjni_init_from_message, releaseByteArrayElements, h]

/-- Claim C7: when the byte-array borrow cannot be obtained,
session-from-prekey and session-from-message return the NULL sentinel,
never reach the native call (nativeLen none / nativeCalled false), and
release the session-id string they had already acquired. -/
theorem c7_borrow_failure_aborts (mutated pkArr msgArr : List Int)
    (rcP rcM : CBoxResult) (ptrP ptrM : Int) (thP thM sOkP sOkM pOkM : Bool)
    (pout : Option CBoxVec) (venvM : Vec2ArrEnv) (sidP sidM : Nat) :
    cboxjni_init_from_prekey ⟨true, false, mutated, rcP, ptrP, thP, sOkP⟩ sidP
        pkArr =
      ⟨ObjRet.null, none, pkArr, true, none⟩ ∧
    cboxjni_init_from_message ⟨true, false, mutated, rcM, ptrM, pout, thM, sOkM,
        pOkM, venvM⟩ sidM msgArr =
      ⟨MsgRet.null, none, msgArr, true, false, 0⟩ :=
  ⟨rfl, rfl⟩

/-- Claim C8: the fingerprint entry points ignore the native result code
(the result is identical for any two codes rc1, rc2) and hand the output
pointer to cboxjni_vec2arr unconditionally, whose first step reads the
buffer length without a null guard: when the native call failed and left
the pointer NULL, the outcome is a null dereference (JRet.crash). -/
theorem c8_fingerprint_null_deref (rc1 rc2 : CBoxResult) (venv : Vec2ArrEnv)
    (out : Option CBoxVec) :
    (cboxjni_local_fingerprint ⟨rc1, none, venv⟩).1 = JRet.crash ∧
    (cboxjni_remote_fingerprint ⟨rc1, none, venv⟩).1 = JRet.crash ∧
    cboxjni_local_fingerprint ⟨rc1, out, venv⟩ =
      cboxjni_local_fingerprint ⟨rc2, out, venv⟩ ∧
    cboxjni_remote_fingerprint ⟨rc1, out, venv⟩ =
      cboxjni_remote_fingerprint ⟨rc2, out, venv⟩ :=
  ⟨rfl, rfl, rfl, rfl⟩

/-- Claim C10: with the session id acquired and the array borrowed,
session-from-prekey passes to the native call the prekey array length
reduced mod 2^16 (the uint16_t variable of line 181); for arrays of
65536 bytes or more the passed length therefore differs from the actual
length. -/
theorem c10_prekey_len_truncated (mutated pkArr : List Int) (rc : CBoxResult)
    (ptr : Int) (th sOk : Bool) (sid : Nat) :
    (cboxjni_init_from_prekey ⟨true, true, mutated, rc, ptr, th, sOk⟩ sid
        pkArr).nativeLen = some (pkArr.length % 65536) ∧
    (65536 ≤ pkArr.length →
      (cboxjni_init_from_prekey ⟨true, true, mutated, rc, ptr, th, sOk⟩ sid
          pkArr).nativeLen ≠ some pkArr.length) := by
  constructor
  · by_cases h : rc = 0 <;> simp [cboxjni_init_from_prekey, h]
  · intro hlen
    have hne : pkArr.length % 65536 ≠ pkArr.length := by omega
    by_cases h : rc = 0 <;> simp [cboxjni_init_from_prekey, h, hne]

/-- Witness for claim C10 on a concrete array of exactly 65536 bytes. -/
theorem c10_prekey_len_witness :
    65536 ≤ (List.replicate 65536 (0 : Int)).length ∧
      (cboxjni_init_from_prekey ⟨true, true, [], 0, 0, true, true⟩ 0
          (List.replicate 65536 (0 : Int))).nativeLen ≠
        some (List.replicate 65536 (0 : Int)).length := by
  have hlen : 65536 ≤ (List.replicate 65536 (0 : Int)).length := by
    rw [List.length_replicate]
  exact ⟨hlen,
    (c10_prekey_len_truncated [] (List.replicate 65536 (0 : Int)) 0 0 true true
        0).2 hlen⟩

/-- Claim C4 counterexample: at start = 2147483647 (INT_MAX) and
count = 2, with every native and JNI step succeeding, the second bundle
id is the wrapped jint -2147483648, not start + 1 = 2147483648, so the
ids are not start, start+1 and not ascending. -/
theorem c4_prekey_id_overflow_counterexample :
    cboxjni_new_prekeys allOkPrekeyEnv 2147483647 2 =
        some [⟨2147483647, [1]⟩, ⟨-2147483648, [1]⟩] ∧
      ((2147483647 : Int) + 1 ≠ -2147483648) := by
  constructor
  · rfl
  · decide

/-- Claim C4 (amended): when every native prekey generation and
conversion step succeeds, generate-prekeys returns exactly count bundles
whose ids are start, start+1, ... reduced into the 32-bit signed jint
range (wrap32); count = 0 yields the empty array, not a failure; and
whenever start + count - 1 stays within the jint range the ids are
exactly start, start+1, ..., start+count-1 in ascending order. -/
theorem c4_new_prekeys_amended (env : PrekeyEnv) (start : Int) (num : Nat)
    (h : PrekeyEnvOk env num) :
    cboxjni_new_prekeys env start num =
      some ((List.range num).map
        (fun j => ⟨wrap32 (start + (j : Int)), env.key j⟩)) ∧
    (∀ l, cboxjni_new_prekeys env start num = some l → l.length = num) ∧
    (num = 0 → cboxjni_new_prekeys env start num = some []) ∧
    (-2147483648 ≤ start → start + (num : Int) ≤ 2147483648 →
      cboxjni_new_prekeys env start num =
        some ((List.range num).map (fun j => ⟨start + (j : Int), env.key j⟩))) := by
  obtain ⟨halloc, hsteps⟩ := h
  have hmain : cboxjni_new_prekeys env start num =
      some ((List.range num).map
        (fun j => ⟨wrap32 (start + (j : Int)), env.key j⟩)) := by
    unfold cboxjni_new_prekeys
    rw [halloc, if_pos rfl]
    have hl := prekeyLoop_all_ok env start num 0
      (by intro j hj; exact hsteps j (by omega))
    rw [hl]
    refine congrArg some (List.map_congr_left ?_)
    intro j _
    simp
  refine ⟨hmain, ?_, ?_, ?_⟩
  · intro l hl
    rw [hmain] at hl
    cases hl
    simp
  · intro hz
    subst hz
    rw [hmain]
    rfl
  · intro hlo hhi
    rw [hmain]
    refine congrArg some (List.map_congr_left ?_)
    intro j hj
    have hjn : (j : Int) < (num : Int) := by
      exact_mod_cast List.mem_range.mp hj
    have h1 : -2147483648 ≤ start + (j : Int) := by
      have : (0 : Int) ≤ (j : Int) := Int.ofNat_nonneg j
      omega
    have h2 : start + (j : Int) < 2147483648 := by omega
    rw [wrap32_eq_self (start + (j : Int)) h1 h2]

/-- Witness for claim C4 (amended) at start = 5, count = 3. -/
theorem c4_new_prekeys_witness :
    PrekeyEnvOk allOkPrekeyEnv 3 ∧
      cboxjni_new_prekeys allOkPrekeyEnv 5 3 =
        some [⟨5, [1]⟩, ⟨6, [1]⟩, ⟨7, [1]⟩] := by
  have hok : PrekeyEnvOk allOkPrekeyEnv 3 := by
    exact ⟨rfl, fun i _ => ⟨rfl, rfl, rfl, rfl, rfl⟩⟩
  refine ⟨hok, ?_⟩
  have h := (c4_new_prekeys_amended allOkPrekeyEnv 5 3 hok).2.2.2 (by decide)
    (by decide)
  rw [h]
  rfl

/-- Claim C9 counterexample: with the native call and the plaintext
conversion both succeeding but the SessionMessage NewObject failing, the
entry point returns the NULL sentinel even though the plaintext
conversion did not fail, refuting the claim that NULL is returned only
when the plaintext conversion itself fails. -/
theorem c9_pair_ctor_counterexample :
    (cboxjni_vec2arr ⟨true, true⟩ (some ⟨[1, 2]⟩)).1 = JRet.arr [1, 2] ∧
      cboxjni_init_from_message
          ⟨true, true, [], 0, 7, some ⟨[1, 2]⟩, true, true, false, ⟨true, true⟩⟩ 0
          [9] =
        ⟨MsgRet.null, none, [9], true, true, 1⟩ :=
  ⟨rfl, rfl⟩

/-- Claim C9 (amended): in session-from-message, after the native call
succeeds, the session wrapper construction result is not checked: on
wrapper-construction failure the plaintext buffer is still converted
(and freed exactly once) and a pair with a NULL session component is
returned, provided the pair construction succeeds; the NULL sentinel is
returned exactly when the plaintext conversion fails or when the pair
NewObject itself fails (its result is returned unchecked). -/
theorem c9_init_from_message_amended (mutated msgArr : List Int) (ptr : Int)
    (pout : Option CBoxVec) (th sOk pOk : Bool) (venv : Vec2ArrEnv) (sid : Nat) :
    (sOk = false → pOk = true →
      ∀ pt, (cboxjni_vec2arr venv pout).1 = JRet.arr pt →
        cboxjni_init_from_message
            ⟨true, true, mutated, 0, ptr, pout, th, sOk, pOk, venv⟩ sid msgArr =
          ⟨MsgRet.pair ObjRet.null pt, none, msgArr, true, true, 1⟩) ∧
    ((cboxjni_vec2arr venv pout).1 = JRet.null →
      (cboxjni_init_from_message
          ⟨true, true, mutated, 0, ptr, pout, th, sOk, pOk, venv⟩ sid
          msgArr).ret = MsgRet.null) ∧
    ((cboxjni_init_from_message
        ⟨true, true, mutated, 0, ptr, pout, th, sOk, pOk, venv⟩ sid
        msgArr).ret = MsgRet.null →
      (cboxjni_vec2arr venv pout).1 = JRet.null ∨ pOk = false) := by
  refine ⟨?_, ?_, ?_⟩
  · intro hs hp pt hconv
    subst hs
    subst hp
    obtain ⟨b, rfl⟩ : ∃ b, pout = some b := by
      cases pout with
      | none => simp [cboxjni_vec2arr] at hconv
      | some b => exact ⟨b, rfl⟩
    have hfree : (cboxjni_vec2arr venv (some b)).2 = 1 :=
      vec2arr_snd_of_some venv b
    simp [cboxjni_init_from_message, cboxjni_new_session,
      releaseByteArrayElements, hconv, hfree]
  · intro hconv
    simp [cboxjni_init_from_message, releaseByteArrayElements, hconv]
  · intro hret
    by_cases hp : pOk = false
    · exact Or.inr hp
    · left
      rw [Bool.not_eq_false] at hp
      cases h2 : (cboxjni_vec2arr venv pout).1 with
      | arr pt => simp [cboxjni_init_from_message, releaseByteArrayElements, h2,
          hp] at hret
      | null => rfl
      | crash => simp [cboxjni_init_from_message, releaseByteArrayElements,
          h2] at hret

/-- Witness for claim C9 (amended): session wrapper construction fails,
plaintext conversion succeeds, pair construction succeeds. -/
theorem c9_init_from_message_witness :
    cboxjni_init_from_message
        ⟨true, true, [], 0, 7, some ⟨[1, 2]⟩, true, false, true, ⟨true, true⟩⟩ 0
        [9] =
      ⟨MsgRet.pair ObjRet.null [1, 2], none, [9], true, true, 1⟩ :=
  (c9_init_from_message_amended [] [9] 7 (some ⟨[1, 2]⟩) true false true
      ⟨true, true⟩ 0).1 rfl rfl [1, 2] rfl
